import Mathlib

/-!
Verification of `push_notifications/apns_async.py` against its specification.

The module builds Apple Push Notification service payloads and forwards them
to a provider client, updating a device registry when the provider reports an
unregistered token.  We shallowly embed the payload builder
(`_create_notification_request_from_args`), the single-send entry point
(`apns_send_message`), the bulk-send entry point (`apns_send_bulk_message`)
and the topic-resolution dataflow of `_create_client`, and prove the spec's
claims about them.

Python dictionaries holding JSON-like payload data are modelled as
association lists of `String × PValue` built with insertion-order update
semantics (`dictSet`/`dictMerge`); Python `None` is `PValue.null`; the
`NotSet` sentinel used by the `Alert` dataclass is modelled by `Option`
(`none` = field left at `NotSet`).  The provider client is an oracle mapping
a device token to the outcome of the send: either a `NotificationResult`
(as returned by the wrapped client) or a raised connection error.
-/

/-- JSON-like values appearing in APNS payloads: Python `None`, strings,
integers, arrays and dictionaries.  `PValue.obj` keeps the dictionary as an
insertion-ordered association list, matching Python `dict` iteration order. -/
inductive PValue where
  | null : PValue
  | str : String → PValue
  | int : Int → PValue
  | arr : List PValue → PValue
  | obj : List (String × PValue) → PValue
deriving Repr

/-- Python `dict` assignment `d[k] = v`: overwrite the value of an existing
key in place, otherwise append the pair at the end. -/
def dictSet (d : List (String × PValue)) (k : String) (v : PValue) :
    List (String × PValue) :=
  if (d.lookup k).isSome then
    d.map (fun p => if p.1 = k then (k, v) else p)
  else
    d ++ [(k, v)]

/-- Python `{**a, **b}`: keys of `b` folded into `a`, later keys winning. -/
def dictMerge (a b : List (String × PValue)) : List (String × PValue) :=
  b.foldl (fun acc p => dictSet acc p.1 p.2) a

/-- Python value of an optional int argument: `None` when absent. -/
def optIntVal (v : Option Int) : PValue :=
  match v with
  | some n => PValue.int n
  | none => PValue.null

/-- Python value of an optional string argument: `None` when absent. -/
def optStrVal (v : Option String) : PValue :=
  match v with
  | some s => PValue.str s
  | none => PValue.null

/-- The `Alert` dataclass of `apns_async.py`.  Every field defaults to the
`NotSet` sentinel, modelled by `none`; a field holds `some v` exactly when
the caller set it. -/
structure Alert where
  title : Option String
  subtitle : Option String
  body : Option String
  launch_image : Option String
  title_loc_key : Option String
  title_loc_args : Option (List String)
  subtitle_loc_key : Option String
  subtitle_loc_args : Option (List String)
  loc_key : Option String
  loc_args : Option (List String)
  sound : Option String
deriving Repr, DecidableEq

/-- An `Alert` with every field left at `NotSet`, as `Alert()` constructs. -/
def Alert.default : Alert :=
  ⟨none, none, none, none, none, none, none, none, none, none, none⟩

/-- One entry of `Alert.asDict`: a string field is emitted only when set. -/
def optFieldEntry (k : String) (v : Option String) : List (String × PValue) :=
  match v with
  | some s => [(k, PValue.str s)]
  | none => []

/-- One entry of `Alert.asDict`: a string-list field is emitted only when set. -/
def optListFieldEntry (k : String) (v : Option (List String)) :
    List (String × PValue) :=
  match v with
  | some l => [(k, PValue.arr (l.map PValue.str))]
  | none => []

/-- The `asDict` method of `Alert`: dataclass fields in declaration order,
underscores replaced by dashes, fields still at `NotSet` skipped. -/
def Alert.asDict (a : Alert) : List (String × PValue) :=
  optFieldEntry "title" a.title ++
  optFieldEntry "subtitle" a.subtitle ++
  optFieldEntry "body" a.body ++
  optFieldEntry "launch-image" a.launch_image ++
  optFieldEntry "title-loc-key" a.title_loc_key ++
  optListFieldEntry "title-loc-args" a.title_loc_args ++
  optFieldEntry "subtitle-loc-key" a.subtitle_loc_key ++
  optListFieldEntry "subtitle-loc-args" a.subtitle_loc_args ++
  optFieldEntry "loc-key" a.loc_key ++
  optListFieldEntry "loc-args" a.loc_args ++
  optFieldEntry "sound" a.sound

/-- The `push_type` values the module uses (`PushType.ALERT` and
`PushType.BACKGROUND` of the wrapped client). -/
inductive PushType where
  | alert : PushType
  | background : PushType
deriving Repr, DecidableEq

/-- The `alert` argument of the builder.  Its annotation is
`Union[str, Alert]`, but the code also accepts `None` (silent push) and, not
validating at all, any other Python data value, modelled by `other` carrying
the value (a non-`str`, non-`Alert`, non-`None` data value such as a number,
list or dict; such values reject attribute assignment). -/
inductive AlertArg where
  | none : AlertArg
  | str : String → AlertArg
  | alert : Alert → AlertArg
  | other : PValue → AlertArg
deriving Repr

/-- Python exceptions the embedded builder can raise: setting `.loc_key` on
a plain data value raises `AttributeError`. -/
inductive PyError where
  | attributeError : PyError
deriving Repr, DecidableEq

/-- The `NotificationRequest` constructed by the builder.  `push_type`,
`time_to_live`, `priority` and `collapse_key` are the keyword arguments the
builder puts into `notification_request_kwargs_out` (absent entries are
`none`). -/
structure NotificationRequest where
  device_token : String
  message : PValue
  push_type : PushType
  time_to_live : Option Int
  priority : Option Int
  collapse_key : Option String
deriving Repr

/-- Truthiness of the `loc_key: str = None` argument: Python `if loc_key:`
is false for `None` and for the empty string. -/
def locKeyTruthy (loc_key : Option String) : Bool :=
  match loc_key with
  | some k => !k.isEmpty
  | none => false

/-- The `if loc_key:` block of the builder, acting on the alert after the
`None` replacement: a string body is wrapped into a fresh `Alert`, then
`alert.loc_key = loc_key` is executed on whatever object `alert` names
(mutating the caller's object when the caller passed an `Alert`); on a plain
data value the attribute assignment raises `AttributeError`. -/
def applyLocKey (alert1 : AlertArg) (loc_key : Option String) :
    Except PyError AlertArg :=
  if locKeyTruthy loc_key then
    match alert1 with
    | AlertArg.str s =>
        Except.ok (AlertArg.alert
          { Alert.default with body := some s, loc_key := loc_key })
    | AlertArg.alert a =>
        Except.ok (AlertArg.alert { a with loc_key := loc_key })
    | AlertArg.other _ => Except.error PyError.attributeError
    | AlertArg.none => Except.ok AlertArg.none
  else
    Except.ok alert1

/-- The wire value the processed alert contributes to the `aps` dictionary:
an `Alert` goes through `asDict`, a string or any other value is used
verbatim. -/
def alertWireValue (alert2 : AlertArg) : PValue :=
  match alert2 with
  | AlertArg.alert a => PValue.obj a.asDict
  | AlertArg.str s => PValue.str s
  | AlertArg.other v => v
  | AlertArg.none => PValue.null

/-- The state of the caller's `alert` argument after the builder returns:
the in-place `alert.loc_key = loc_key` assignment is visible to the caller
exactly when the caller passed an `Alert` object and `loc_key` is truthy
(the string and `None` cases build a fresh `Alert`, leaving the caller's
value untouched). -/
def callerAlertAfter (alert : AlertArg) (loc_key : Option String) : AlertArg :=
  match alert with
  | AlertArg.alert a =>
      if locKeyTruthy loc_key then AlertArg.alert { a with loc_key := loc_key }
      else AlertArg.alert a
  | a => a

/-- The push type selected at the top of the builder: `PushType.ALERT`,
switched to `PushType.BACKGROUND` when the alert argument is `None`. -/
def pushTypeFor (alert : AlertArg) : PushType :=
  match alert with
  | AlertArg.none => PushType.background
  | _ => PushType.alert

/-- The replacement `if alert is None: alert = Alert(body="")` at the top
of the builder. -/
def normalizeAlert (alert : AlertArg) : AlertArg :=
  match alert with
  | AlertArg.none => AlertArg.alert { Alert.default with body := some "" }
  | a => a

/-- Shallow embedding of `_create_notification_request_from_args`.

Mirrors the source statement by statement: `push_type` starts as `ALERT`
and a `None` alert is replaced by `Alert(body="")` with `push_type`
switched to `BACKGROUND`; the `loc_key` block runs next; an `Alert` is then
converted through `asDict`; the request's message is
`{"aps": {"alert": ..., "badge": ..., "sound": ..., "thread-id": ...,
**aps_kwargs}, **extra, **message_kwargs}` with Python `dict` merge
semantics.  The `notification_request_kwargs` mechanism is modelled by the
explicit `push_type`/`time_to_live`/`priority`/`collapse_key` request
fields; `now` stands for `int(time.time())` in the expiration conversion.
The result carries the request together with the caller-visible final state
of the `alert` argument. -/
def _create_notification_request_from_args
    (registration_id : String) (alert : AlertArg) (badge : Option Int)
    (sound : Option String) (extra : List (String × PValue))
    (expiration : Option Int) (thread_id : Option String)
    (loc_key : Option String) (priority : Option Int)
    (collapse_id : Option String) (aps_kwargs : List (String × PValue))
    (message_kwargs : List (String × PValue)) (now : Int) :
    Except PyError (NotificationRequest × AlertArg) :=
  match applyLocKey (normalizeAlert alert) loc_key with
  | Except.error e => Except.error e
  | Except.ok alert2 =>
    let aps : List (String × PValue) :=
      dictMerge
        [("alert", alertWireValue alert2), ("badge", optIntVal badge),
         ("sound", optStrVal sound), ("thread-id", optStrVal thread_id)]
        aps_kwargs
    let message : List (String × PValue) :=
      dictMerge (dictMerge [("aps", PValue.obj aps)] extra) message_kwargs
    Except.ok
      ({ device_token := registration_id
         message := PValue.obj message
         push_type := pushTypeFor alert
         time_to_live :=
           match expiration with
           | some e => some (e - now)
           | none => none
         priority := priority
         collapse_key := collapse_id }, callerAlertAfter alert loc_key)

/-- The request built for a given processed alert: the builder returns
exactly this request (paired with the caller-visible final alert) whenever
the `loc_key` block did not raise. -/
def builtRequest (registration_id : String) (alert : AlertArg)
    (badge : Option Int) (sound : Option String)
    (extra : List (String × PValue)) (expiration : Option Int)
    (thread_id : Option String) (priority : Option Int)
    (collapse_id : Option String) (aps_kwargs : List (String × PValue))
    (message_kwargs : List (String × PValue)) (now : Int)
    (alert2 : AlertArg) : NotificationRequest :=
  { device_token := registration_id
    message := PValue.obj
      (dictMerge
        (dictMerge
          [("aps", PValue.obj
            (dictMerge
              [("alert", alertWireValue alert2), ("badge", optIntVal badge),
               ("sound", optStrVal sound),
               ("thread-id", optStrVal thread_id)]
              aps_kwargs))]
          extra)
        message_kwargs)
    push_type := pushTypeFor alert
    time_to_live :=
      match expiration with
      | some e => some (e - now)
      | none => none
    priority := priority
    collapse_key := collapse_id }

/-- The wrapped client's `NotificationResult`, as the module consumes it:
the `is_successful` flag and the provider's `description` (failure reason). -/
structure NotificationResult where
  is_successful : Bool
  description : String
deriving Repr, DecidableEq

/-- Outcome of one `send_message` call on the wrapped client: either a
`NotificationResult`, or a raised `aioapns` `ConnectionError` carrying the
exception's class name (the module reads `e.__class__.__name__`). -/
inductive SendOutcome where
  | result : NotificationResult → SendOutcome
  | connError : String → SendOutcome
deriving Repr, DecidableEq

/-- Whether a send returned a provider result (no exception was raised). -/
def SendOutcome.isResult (o : SendOutcome) : Bool :=
  match o with
  | SendOutcome.result _ => true
  | SendOutcome.connError _ => false

/-- The device registry (`models.APNSDevice`), abstracted to the `active`
flag of each registration id. -/
structure Registry where
  active : String → Bool

/-- The ORM bulk update
`filter(registration_id__in=tokens).update(active=False)`: every device
whose registration id occurs in `tokens` is marked inactive once, set
semantics (duplicates in `tokens` change nothing). -/
def Registry.deactivateIn (r : Registry) (tokens : List String) : Registry :=
  ⟨fun t => if t ∈ tokens then false else r.active t⟩

/-- The `APNSServerError` raised by the module, carrying its `status`. -/
structure APNSServerError where
  status : String
deriving Repr, DecidableEq

/-- Shallow embedding of `apns_send_message` (the send and registry part;
client construction is abstracted into the `send` oracle, which maps the
device token to the outcome of `apns_service.send_message` on the request
built for it).  A successful result returns `()` and leaves the registry
alone; an unsuccessful result first deactivates the single token when the
description is `"Unregistered"` and then raises
`APNSServerError(status=description)`; a raised `ConnectionError` is caught
and re-raised as `APNSServerError` with the exception's class name. -/
def apns_send_message (send : String → SendOutcome) (registration_id : String)
    (reg : Registry) : Except APNSServerError Unit × Registry :=
  match send registration_id with
  | SendOutcome.connError name => (Except.error ⟨name⟩, reg)
  | SendOutcome.result res =>
    if res.is_successful then (Except.ok (), reg)
    else
      let reg2 :=
        if res.description = "Unregistered" then
          reg.deactivateIn [registration_id]
        else reg
      (Except.error ⟨res.description⟩, reg2)

/-- What `apns_send_bulk_message` did: `results` is the returned dict
(keyed by token; `none` for tokens never written), `updateCalls` lists the
registry bulk-update invocations it performed with their filter lists,
`attempted` lists the tokens for which a send was attempted in order, and
`error` is the class name of an uncaught exception when one escaped the
loop (`none` when the function returned normally). -/
structure BulkResult where
  results : String → Option String
  updateCalls : List (List String)
  attempted : List String
  error : Option String

/-- Loop state of the bulk send: the accumulated results dict, the
`inactive_tokens` list (appended per notification, duplicates kept) and the
tokens attempted so far. -/
structure BulkState where
  results : String → Option String
  inactive : List String
  attempted : List String

/-- The loop of `apns_send_bulk_message`.  Each iteration sends to one
token and records `"Success"` or the provider's description in the results
dict; an `"Unregistered"` failure appends the token to `inactive_tokens`.
The loop body has no exception handler, so a `ConnectionError` raised by a
send escapes immediately: no registry update happens and the results dict
is lost to the caller.  After the loop, one bulk registry update runs when
`inactive_tokens` is non-empty. -/
def bulkLoop (send : String → SendOutcome) :
    List String → BulkState → BulkResult
  | [], st =>
    { results := st.results
      updateCalls := if st.inactive.length > 0 then [st.inactive] else []
      attempted := st.attempted
      error := none }
  | t :: ts, st =>
    match send t with
    | SendOutcome.connError name =>
      { results := st.results
        updateCalls := []
        attempted := st.attempted ++ [t]
        error := some name }
    | SendOutcome.result res =>
      bulkLoop send ts
        { results := fun s =>
            if s = t then
              some (if res.is_successful then "Success" else res.description)
            else st.results s
          inactive :=
            if !res.is_successful && res.description = "Unregistered" then
              st.inactive ++ [t]
            else st.inactive
          attempted := st.attempted ++ [t] }

/-- Shallow embedding of `apns_send_bulk_message` (send and registry part;
client construction, which happens before the loop, is abstracted into the
`send` oracle). -/
def apns_send_bulk_message (send : String → SendOutcome)
    (registration_ids : List String) : BulkResult :=
  bulkLoop send registration_ids
    { results := fun _ => none, inactive := [], attempted := [] }

/-- Applying the recorded registry bulk-update calls to a registry. -/
def applyUpdates (reg : Registry) (calls : List (List String)) : Registry :=
  calls.foldl Registry.deactivateIn reg

/-- How many of the recorded bulk-update calls touch token `t`, i.e. how
often the registry deactivation is applied to `t` (each set-based call
marks a matching device inactive once). -/
def updateCallsAffecting (calls : List (List String)) (t : String) : Nat :=
  (calls.filter (fun c => decide (t ∈ c))).length

/-- Whether the send for token `t` came back unsuccessful with the
provider reason `"Unregistered"`. -/
def unregisteredAt (send : String → SendOutcome) (t : String) : Bool :=
  match send t with
  | SendOutcome.result res =>
      !res.is_successful && res.description = "Unregistered"
  | SendOutcome.connError _ => false

/-- The outcome description the bulk loop stores for a provider result:
`"Success"`, or the provider's failure reason. -/
def outcomeDescription (send : String → SendOutcome) (t : String) : String :=
  match send t with
  | SendOutcome.result res =>
      if res.is_successful then "Success" else res.description
  | SendOutcome.connError name => name

/-- The application configuration reachable through `get_manager()`,
restricted to the topic mapping: `get_apns_topic(application_id)`. -/
structure PushConfig where
  apns_topic : Option String → String

/-- Topic resolution inside `_create_client`: a `None` topic is replaced by
`get_apns_topic(application_id)`, an explicit topic is used as passed. -/
def createClientTopic (cfg : PushConfig) (topic : Option String)
    (application_id : Option String) : String :=
  match topic with
  | none => cfg.apns_topic application_id
  | some t => t

/-- The topic `apns_send_message` ends up sending with: it forwards its
`topic` parameter to `APNsService` unchanged, so `_create_client` resolves
it. -/
def apns_send_message_topic (cfg : PushConfig) (topic : Option String)
    (application_id : Option String) : String :=
  createClientTopic cfg topic application_id

/-- The topic `apns_send_bulk_message` ends up sending with: its first
statement reassigns `topic = get_manager().get_apns_topic(application_id)`,
discarding the caller's argument, before constructing `APNsService`. -/
def apns_send_bulk_message_topic (cfg : PushConfig) (topic : Option String)
    (application_id : Option String) : String :=
  createClientTopic cfg (some (cfg.apns_topic application_id)) application_id

/-- A field lookup inside the `aps` object of a request's message: `none`
when the message has no `aps` dictionary or the key is absent. -/
def apsField (req : NotificationRequest) (k : String) : Option PValue :=
  match req.message with
  | PValue.obj m =>
    match m.lookup "aps" with
    | some (PValue.obj aps) => aps.lookup k
    | _ => none
  | _ => none

/-- Example provider for the C6 witness: token `"u"` is reported
`"Unregistered"`, every other token succeeds. -/
def ex6Send : String → SendOutcome := fun t =>
  if t = "u" then SendOutcome.result ⟨false, "Unregistered"⟩
  else SendOutcome.result ⟨true, ""⟩

/-- Example registry for the C6 witness: every device active. -/
def ex6Reg : Registry := ⟨fun _ => true⟩

/-- Example provider for the C7 counterexample: the send for token `"b"`
raises a `ConnectionError`, every other send succeeds. -/
def ex7Send : String → SendOutcome := fun t =>
  if t = "b" then SendOutcome.connError "ConnectionError"
  else SendOutcome.result ⟨true, ""⟩

/-- Example provider for the C7 witness: token `"bad"` fails with reason
`"BadDeviceToken"`, every other token succeeds; no send raises. -/
def ex7OkSend : String → SendOutcome := fun t =>
  if t = "bad" then SendOutcome.result ⟨false, "BadDeviceToken"⟩
  else SendOutcome.result ⟨true, ""⟩

/-- Example provider for the C8 witness: every send comes back
unsuccessful with reason `"Unregistered"`. -/
def ex8Send : String → SendOutcome := fun _ =>
  SendOutcome.result ⟨false, "Unregistered"⟩

/-- Example registry for the C8 witness: every device active. -/
def ex8Reg : Registry := ⟨fun _ => true⟩

/-- Closed form of the builder: it maps the outcome of the `loc_key` block
over the request construction. -/
theorem create_request_eq (registration_id : String) (alert : AlertArg)
    (badge : Option Int) (sound : Option String)
    (extra : List (String × PValue)) (expiration : Option Int)
    (thread_id : Option String) (loc_key : Option String)
    (priority : Option Int) (collapse_id : Option String)
    (aps_kwargs : List (String × PValue))
    (message_kwargs : List (String × PValue)) (now : Int) :
    _create_notification_request_from_args registration_id alert badge sound
        extra expiration thread_id loc_key priority collapse_id aps_kwargs
        message_kwargs now
      = (applyLocKey (normalizeAlert alert) loc_key).map
          (fun alert2 =>
            (builtRequest registration_id alert badge sound extra expiration
              thread_id priority collapse_id aps_kwargs message_kwargs now
              alert2,
             callerAlertAfter alert loc_key)) := by
  cases happ : applyLocKey (normalizeAlert alert) loc_key with
  | error e =>
    simp [_create_notification_request_from_args, happ, Except.map]
  | ok alert2 =>
    simp [_create_notification_request_from_args, happ, Except.map,
      builtRequest]

/-- When every send in the batch returns a provider result, the bulk loop
terminates normally: no exception escapes. -/
theorem bulkLoop_error_eq_none (send : String → SendOutcome) :
    ∀ ids : List String, (∀ t ∈ ids, (send t).isResult = true) →
      ∀ st : BulkState, (bulkLoop send ids st).error = none
  | [], _, _ => rfl
  | t :: ts, h, st => by
    have ht := h t (List.mem_cons_self t ts)
    cases hsend : send t with
    | connError name => simp [SendOutcome.isResult, hsend] at ht
    | result res =>
      simp only [bulkLoop, hsend]
      exact bulkLoop_error_eq_none send ts
        (fun s hs => h s (List.mem_cons_of_mem _ hs)) _

/-- When every send in the batch returns a provider result, the bulk loop
performs exactly one registry bulk update — with filter list the initial
`inactive_tokens` followed by the tokens whose send came back
`"Unregistered"`, duplicates kept — unless that list is empty, in which
case it performs none. -/
theorem bulkLoop_updateCalls_eq (send : String → SendOutcome) :
    ∀ ids : List String, (∀ t ∈ ids, (send t).isResult = true) →
      ∀ st : BulkState,
        (bulkLoop send ids st).updateCalls =
          (if (st.inactive ++ ids.filter (fun s => unregisteredAt send s)).length > 0
           then [st.inactive ++ ids.filter (fun s => unregisteredAt send s)]
           else [])
  | [], _, st => by simp [bulkLoop]
  | t :: ts, h, st => by
    have ht := h t (List.mem_cons_self t ts)
    cases hsend : send t with
    | connError name => simp [SendOutcome.isResult, hsend] at ht
    | result res =>
      have ih := bulkLoop_updateCalls_eq send ts
        (fun s hs => h s (List.mem_cons_of_mem _ hs))
      have hp : unregisteredAt send t
          = (!res.is_successful && res.description = "Unregistered") := by
        simp [unregisteredAt, hsend]
      simp only [bulkLoop, hsend]
      rw [ih]
      cases hcond : (!res.is_successful && res.description = "Unregistered") with
      | true =>
        simp [List.filter_cons, hp, hcond, List.append_assoc]
      | false =>
        simp [List.filter_cons, hp, hcond]

/-- When every send in the batch returns a provider result, each token in
the batch ends up mapped to its outcome description in the results dict,
and tokens outside the batch keep their initial entry. -/
theorem bulkLoop_results_eq (send : String → SendOutcome) :
    ∀ ids : List String, (∀ t ∈ ids, (send t).isResult = true) →
      ∀ (st : BulkState) (s : String),
        (bulkLoop send ids st).results s =
          (if s ∈ ids then some (outcomeDescription send s) else st.results s)
  | [], _, st, s => by simp [bulkLoop]
  | t :: ts, h, st, s => by
    have ht := h t (List.mem_cons_self t ts)
    cases hsend : send t with
    | connError name => simp [SendOutcome.isResult, hsend] at ht
    | result res =>
      have ih := bulkLoop_results_eq send ts
        (fun u hu => h u (List.mem_cons_of_mem _ hu))
      simp only [bulkLoop, hsend]
      rw [ih]
      by_cases hmem : s ∈ ts
      · simp [hmem, List.mem_cons]
      · by_cases hst : s = t
        · subst hst
          simp [hmem, outcomeDescription, hsend]
        · simp [hmem, hst]

/-- C1 counterexample: for the intent with absent alert content
(`alert = None`, every other argument at its default), the built payload's
`aps` object DOES contain an `"alert"` key — `Alert(body="")` is
substituted and serialized — so the claim that the `aps` object contains no
`"alert"` key is false at this input. -/
theorem C1_counterexample :
    (_create_notification_request_from_args "abc" AlertArg.none none none []
        none none none none none [] [] 0).map
      (fun p => (apsField p.1 "alert").isSome)
      = Except.ok true := rfl

/-- C1 amended: for every intent with absent alert content, payload
building succeeds, the push type is `"background"`, and the `aps` object
contains an `"alert"` key mapped to a structured alert whose `"body"` is
the empty string (rather than containing no `"alert"` key). -/
theorem C1_amended (token : String) (badge : Option Int)
    (sound : Option String) (expiration : Option Int)
    (thread_id : Option String) (loc_key : Option String)
    (priority : Option Int) (collapse_id : Option String) (now : Int) :
    (∃ out, _create_notification_request_from_args token AlertArg.none badge
        sound [] expiration thread_id loc_key priority collapse_id [] [] now
        = Except.ok out)
    ∧ ∀ req post,
        _create_notification_request_from_args token AlertArg.none badge
          sound [] expiration thread_id loc_key priority collapse_id [] []
          now = Except.ok (req, post) →
        req.push_type = PushType.background
        ∧ ∃ d, apsField req "alert" = some (PValue.obj d)
            ∧ d.lookup "body" = some (PValue.str "") := by
  rw [create_request_eq]
  cases hk : locKeyTruthy loc_key with
  | false =>
    simp only [applyLocKey, normalizeAlert, hk, Bool.false_eq_true,
      if_false, Except.map]
    refine ⟨⟨_, rfl⟩, ?_⟩
    intro req post h
    simp only [Except.ok.injEq, Prod.mk.injEq] at h
    obtain ⟨hreq, -⟩ := h
    subst hreq
    exact ⟨rfl, _, rfl, rfl⟩
  | true =>
    simp only [applyLocKey, normalizeAlert, hk, if_true, Except.map]
    refine ⟨⟨_, rfl⟩, ?_⟩
    intro req post h
    simp only [Except.ok.injEq, Prod.mk.injEq] at h
    obtain ⟨hreq, -⟩ := h
    subst hreq
    exact ⟨rfl, _, rfl, rfl⟩

/-- C1 witness: the amended statement instantiated at a concrete silent
intent. -/
theorem C1_amended_witness :
    PushType.background = PushType.background
    ∧ ∃ d, apsField
          { device_token := "abc"
            message := PValue.obj [("aps", PValue.obj
              [("alert", PValue.obj [("body", PValue.str "")]),
               ("badge", PValue.null), ("sound", PValue.null),
               ("thread-id", PValue.null)])]
            push_type := PushType.background
            time_to_live := none
            priority := none
            collapse_key := none } "alert" = some (PValue.obj d)
        ∧ d.lookup "body" = some (PValue.str "") :=
  (C1_amended "abc" none none none none none none none 0).2 _ AlertArg.none rfl

/-- C2: for the intent with `alert = None` and token `"abc"`, the built
payload's `aps` object maps `"alert"` to the structured alert
`{"body": ""}` and the push type is `"background"`. -/
theorem C2_silent_push_alert_body_empty :
    (_create_notification_request_from_args "abc" AlertArg.none none none []
        none none none none none [] [] 0).map
      (fun p => (p.1.push_type, apsField p.1 "alert"))
      = Except.ok (PushType.background,
          some (PValue.obj [("body", PValue.str "")])) := rfl

/-- C3 counterexample: for the intent `{alert: "Hello", badge: 3}` the
built payload's `aps` object carries a `"sound"` key mapped to `None`
(and likewise `"thread-id"`), so the claim that the message is exactly
`{"aps": {"alert": "Hello", "badge": 3}}` with no null-valued keys is
false at this input. -/
theorem C3_counterexample :
    (_create_notification_request_from_args "abc" (AlertArg.str "Hello")
        (some 3) none [] none none none none none [] [] 0).map
      (fun p => apsField p.1 "sound")
      = Except.ok (some PValue.null) := rfl

/-- C3 amended: for every intent (default `extra`/`aps_kwargs`/
`message_kwargs`), the built message's `aps` object contains exactly the
four keys `"alert"`, `"badge"`, `"sound"`, `"thread-id"`, in that order;
unset optional fields among badge/sound/thread-id are emitted with `None`
values, not omitted. -/
theorem C3_amended (token : String) (alert : AlertArg) (badge : Option Int)
    (sound : Option String) (expiration : Option Int)
    (thread_id : Option String) (loc_key : Option String)
    (priority : Option Int) (collapse_id : Option String) (now : Int) :
    ∀ req post,
      _create_notification_request_from_args token alert badge sound []
        expiration thread_id loc_key priority collapse_id [] [] now
        = Except.ok (req, post) →
      ∃ av, req.message = PValue.obj [("aps", PValue.obj
        [("alert", av), ("badge", optIntVal badge),
         ("sound", optStrVal sound),
         ("thread-id", optStrVal thread_id)])] := by
  intro req post h
  rw [create_request_eq] at h
  cases happ : applyLocKey (normalizeAlert alert) loc_key with
  | error e => rw [happ] at h; exact absurd h (by simp [Except.map])
  | ok alert2 =>
    rw [happ] at h
    simp only [Except.map, Except.ok.injEq, Prod.mk.injEq] at h
    obtain ⟨hreq, -⟩ := h
    subst hreq
    exact ⟨alertWireValue alert2, rfl⟩

/-- C3 witness: the amended statement instantiated at the spec's scenario
`{alert: "Hello", badge: 3}`; the message is exactly
`{"aps": {"alert": "Hello", "badge": 3, "sound": None,
"thread-id": None}}` with push type `"alert"`. -/
theorem C3_amended_witness :
    (_create_notification_request_from_args "abc" (AlertArg.str "Hello")
        (some 3) none [] none none none none none [] [] 0).map
      (fun p => (p.1.message, p.1.push_type))
      = Except.ok (PValue.obj [("aps", PValue.obj
          [("alert", PValue.str "Hello"), ("badge", PValue.int 3),
           ("sound", PValue.null), ("thread-id", PValue.null)])],
        PushType.alert) := by
  obtain ⟨av, hav⟩ := C3_amended "abc" (AlertArg.str "Hello") (some 3) none
    none none none none none 0 _ _ rfl
  have hv : av = PValue.str "Hello" := by
    have h2 : PValue.obj [("aps", PValue.obj
        [("alert", PValue.str "Hello"), ("badge", PValue.int 3),
         ("sound", PValue.null), ("thread-id", PValue.null)])]
        = PValue.obj [("aps", PValue.obj
        [("alert", av), ("badge", optIntVal (some 3)),
         ("sound", optStrVal none), ("thread-id", optStrVal none)])] := hav
    simp [optIntVal, optStrVal] at h2
    exact h2.symm
  subst hv
  rfl

/-- C4: whenever the builder is called with a plain-string alert and a
non-empty localization key, the resulting payload's alert is the
structured alert whose `"body"` is the original string and whose
`"loc-key"` is the supplied localization key (the full message is computed
exactly). -/
theorem C4_string_alert_merged_with_loc_key (s k token : String)
    (badge : Option Int) (sound : Option String) (expiration : Option Int)
    (thread_id : Option String) (priority : Option Int)
    (collapse_id : Option String) (now : Int) (hk : k.isEmpty = false) :
    (_create_notification_request_from_args token (AlertArg.str s) badge
        sound [] expiration thread_id (some k) priority collapse_id [] []
        now).map (fun p => p.1.message)
      = Except.ok (PValue.obj [("aps", PValue.obj
          [("alert", PValue.obj
             [("body", PValue.str s), ("loc-key", PValue.str k)]),
           ("badge", optIntVal badge), ("sound", optStrVal sound),
           ("thread-id", optStrVal thread_id)])]) := by
  simp [_create_notification_request_from_args, applyLocKey, locKeyTruthy,
    normalizeAlert, hk, alertWireValue, Alert.asDict, Alert.default,
    optFieldEntry, optListFieldEntry, dictMerge, Except.map]

/-- C4 witness: the theorem instantiated at `s = "Hello"`, `k = "K"`. -/
theorem C4_string_alert_merged_with_loc_key_witness :
    "K".isEmpty = false
    ∧ (_create_notification_request_from_args "abc" (AlertArg.str "Hello")
          none none [] none none (some "K") none none [] [] 0).map
        (fun p => p.1.message)
        = Except.ok (PValue.obj [("aps", PValue.obj
            [("alert", PValue.obj
               [("body", PValue.str "Hello"), ("loc-key", PValue.str "K")]),
             ("badge", optIntVal none), ("sound", optStrVal none),
             ("thread-id", optStrVal none)])]) :=
  ⟨by decide, C4_string_alert_merged_with_loc_key "Hello" "K" "abc" none
    none none none none none 0 (by decide)⟩

/-- C5 counterexample: for an alert value that is neither absent, a
string, nor a structured alert (here the number `7`) and no localization
key, payload building does NOT fail — there is no `InvalidIntent` error
anywhere in the module — and the value is embedded into the `aps` object
verbatim; so the claim that building fails with `InvalidIntent` for such
values is false at this input. -/
theorem C5_counterexample :
    (_create_notification_request_from_args "abc"
        (AlertArg.other (PValue.int 7)) none none [] none none none none
        none [] [] 0).map (fun p => apsField p.1 "alert")
      = Except.ok (some (PValue.int 7)) := rfl

/-- C5 amended: the builder performs no alert validation and no
`InvalidIntent` error exists; an alert value that is neither absent, a
string, nor a structured alert is passed through into the payload
unchanged whenever `loc_key` is not truthy, and the only failure mode is
an `AttributeError` from `alert.loc_key = loc_key` when a truthy
localization key accompanies such a plain data value. -/
theorem C5_amended (token : String) (v : PValue) (badge : Option Int)
    (sound : Option String) (expiration : Option Int)
    (thread_id : Option String) (loc_key : Option String)
    (priority : Option Int) (collapse_id : Option String) (now : Int) :
    (locKeyTruthy loc_key = false →
      (_create_notification_request_from_args token (AlertArg.other v)
          badge sound [] expiration thread_id loc_key priority collapse_id
          [] [] now).map (fun p => apsField p.1 "alert")
        = Except.ok (some v))
    ∧ (locKeyTruthy loc_key = true →
      _create_notification_request_from_args token (AlertArg.other v) badge
          sound [] expiration thread_id loc_key priority collapse_id [] []
          now = Except.error PyError.attributeError) := by
  constructor
  · intro hk
    simp [_create_notification_request_from_args, applyLocKey, hk,
      normalizeAlert, alertWireValue, dictMerge, Except.map, apsField]
  · intro hk
    simp [_create_notification_request_from_args, applyLocKey, hk,
      normalizeAlert]

/-- C5 witness: the amended statement's pass-through half instantiated at
the number `9` with `loc_key = None`. -/
theorem C5_amended_witness :
    locKeyTruthy none = false
    ∧ (_create_notification_request_from_args "abc"
          (AlertArg.other (PValue.int 9)) none none [] none none none none
          none [] [] 0).map (fun p => apsField p.1 "alert")
        = Except.ok (some (PValue.int 9)) :=
  ⟨rfl, (C5_amended "abc" (PValue.int 9) none none none none none none
    none 0).1 rfl⟩

/-- C6: when every send in a batch returns a provider result, the registry
deactivation runs as at most one bulk-update call at the end of the batch,
it is applied exactly once per distinct token whose outcome was
`"Unregistered"` — regardless of how many batch entries referenced that
token — and tokens with any other outcome keep their registry state. -/
theorem C6_deactivation_once_per_distinct_unregistered_token
    (send : String → SendOutcome) (ids : List String) (reg : Registry)
    (t : String) (h : ∀ s ∈ ids, (send s).isResult = true) :
    (apns_send_bulk_message send ids).updateCalls.length ≤ 1
    ∧ updateCallsAffecting (apns_send_bulk_message send ids).updateCalls t
        = (if t ∈ ids ∧ unregisteredAt send t = true then 1 else 0)
    ∧ (applyUpdates reg (apns_send_bulk_message send ids).updateCalls).active t
        = (if t ∈ ids ∧ unregisteredAt send t = true then false
           else reg.active t) := by
  have hupd := bulkLoop_updateCalls_eq send ids h
    { results := fun _ => none, inactive := [], attempted := [] }
  unfold apns_send_bulk_message
  rw [hupd]
  simp only [List.nil_append]
  cases hF : ids.filter (fun s => unregisteredAt send s) with
  | nil =>
    have hnot : ¬(t ∈ ids ∧ unregisteredAt send t = true) := by
      intro hc
      have hmem : t ∈ ids.filter (fun s => unregisteredAt send s) :=
        List.mem_filter.mpr ⟨hc.1, hc.2⟩
      rw [hF] at hmem
      exact absurd hmem (List.not_mem_nil t)
    simp [updateCallsAffecting, applyUpdates, hnot]
  | cons c cs =>
    have hiff : (t ∈ ids ∧ unregisteredAt send t = true) ↔ t ∈ c :: cs := by
      rw [← hF]
      exact ⟨fun hc => List.mem_filter.mpr ⟨hc.1, hc.2⟩,
        fun hm => ⟨(List.mem_filter.mp hm).1, (List.mem_filter.mp hm).2⟩⟩
    refine ⟨by simp, ?_, ?_⟩
    · by_cases hmem : t ∈ c :: cs
      · simp [updateCallsAffecting, List.filter, hmem, hiff.mpr hmem]
      · have hnot : ¬(t ∈ ids ∧ unregisteredAt send t = true) :=
          fun hc => hmem (hiff.mp hc)
        simp [updateCallsAffecting, List.filter, hmem, hnot]
    · have hlen : (c :: cs).length > 0 := Nat.succ_pos cs.length
      rw [if_pos hlen]
      by_cases hmem : t ∈ c :: cs
      · rw [if_pos (hiff.mpr hmem)]
        show (if t ∈ c :: cs then false else reg.active t) = false
        exact if_pos hmem
      · have hnot : ¬(t ∈ ids ∧ unregisteredAt send t = true) :=
          fun hc => hmem (hiff.mp hc)
        rw [if_neg hnot]
        show (if t ∈ c :: cs then false else reg.active t) = reg.active t
        exact if_neg hmem

/-- C6 witness: the theorem instantiated at a batch that references the
unregistered token `"u"` twice; the deactivation is applied to `"u"`
exactly once. -/
theorem C6_deactivation_witness :
    (∀ s ∈ ["u", "a", "u"], (ex6Send s).isResult = true)
    ∧ ((apns_send_bulk_message ex6Send ["u", "a", "u"]).updateCalls.length ≤ 1
      ∧ updateCallsAffecting
          (apns_send_bulk_message ex6Send ["u", "a", "u"]).updateCalls "u"
          = (if "u" ∈ ["u", "a", "u"] ∧ unregisteredAt ex6Send "u" = true
             then 1 else 0)
      ∧ (applyUpdates ex6Reg
          (apns_send_bulk_message ex6Send ["u", "a", "u"]).updateCalls).active "u"
          = (if "u" ∈ ["u", "a", "u"] ∧ unregisteredAt ex6Send "u" = true
             then false else ex6Reg.active "u")) :=
  ⟨by decide,
   C6_deactivation_once_per_distinct_unregistered_token ex6Send
     ["u", "a", "u"] ex6Reg "u" (by decide)⟩

/-- C7 counterexample: with a provider whose send for the second token
raises a `ConnectionError`, `apns_send_bulk_message` raises (there is no
handler in its loop) even though a send had already been attempted — and
succeeded — for the first token; so the claim that it raises only for
batch-level setup failures occurring before any send is attempted, and
returns an outcome mapping for every input list, is false at this input. -/
theorem C7_counterexample :
    (apns_send_bulk_message ex7Send ["a", "b"]).error
        = some "ConnectionError"
    ∧ (apns_send_bulk_message ex7Send ["a", "b"]).attempted = ["a", "b"]
    ∧ (apns_send_bulk_message ex7Send ["a", "b"]).results "a"
        = some "Success" :=
  ⟨rfl, rfl, rfl⟩

/-- C7 amended: whenever every send returns a provider result (no
connection-level exception), `apns_send_bulk_message` raises nothing and
returns a mapping carrying, for each token of the input list, `"Success"`
or the provider's failure reason; a connection-level exception raised
during any send, however, propagates even mid-batch. -/
theorem C7_bulk_aggregates_provider_failures
    (send : String → SendOutcome) (ids : List String)
    (h : ∀ t ∈ ids, (send t).isResult = true) :
    (apns_send_bulk_message send ids).error = none
    ∧ ∀ t ∈ ids, (apns_send_bulk_message send ids).results t
        = some (outcomeDescription send t) := by
  refine ⟨bulkLoop_error_eq_none send ids h _, ?_⟩
  intro t ht
  unfold apns_send_bulk_message
  rw [bulkLoop_results_eq send ids h
    { results := fun _ => none, inactive := [], attempted := [] } t]
  rw [if_pos ht]

/-- C7 witness: the amended statement instantiated at a batch mixing a
successful token and a provider-failed token. -/
theorem C7_bulk_aggregates_witness :
    (∀ t ∈ ["good", "bad"], (ex7OkSend t).isResult = true)
    ∧ (apns_send_bulk_message ex7OkSend ["good", "bad"]).error = none
    ∧ (apns_send_bulk_message ex7OkSend ["good", "bad"]).results "bad"
        = some "BadDeviceToken" :=
  ⟨by decide,
   (C7_bulk_aggregates_provider_failures ex7OkSend ["good", "bad"]
     (by decide)).1,
   (C7_bulk_aggregates_provider_failures ex7OkSend ["good", "bad"]
     (by decide)).2 "bad" (by decide)⟩

/-- C8: `apns_send_message` returns `()` and leaves the registry alone
when the provider reports success; for every unsuccessful provider result
it raises `APNSServerError` carrying the provider's reason, deactivating
the single token first exactly when the reason is `"Unregistered"` (no
other registry entry is touched); and a connection-level failure is
re-raised as `APNSServerError` carrying the exception's class name. -/
theorem C8_single_send_outcomes (send : String → SendOutcome) (t : String)
    (reg : Registry) :
    (∀ res, send t = SendOutcome.result res → res.is_successful = true →
      apns_send_message send t reg = (Except.ok (), reg))
    ∧ (∀ res, send t = SendOutcome.result res → res.is_successful = false →
      (apns_send_message send t reg).1 = Except.error ⟨res.description⟩
      ∧ ((apns_send_message send t reg).2.active t
          = if res.description = "Unregistered" then false
            else reg.active t)
      ∧ ∀ s, s ≠ t →
          (apns_send_message send t reg).2.active s = reg.active s)
    ∧ (∀ name, send t = SendOutcome.connError name →
      apns_send_message send t reg = (Except.error ⟨name⟩, reg)) := by
  refine ⟨?_, ?_, ?_⟩
  · intro res hres hsucc
    simp [apns_send_message, hres, hsucc]
  · intro res hres hfail
    refine ⟨?_, ?_, ?_⟩
    · by_cases hdesc : res.description = "Unregistered" <;>
        simp [apns_send_message, hres, hfail, hdesc]
    · by_cases hdesc : res.description = "Unregistered" <;>
        simp [apns_send_message, hres, hfail, hdesc, Registry.deactivateIn]
    · intro s hs
      by_cases hdesc : res.description = "Unregistered" <;>
        simp [apns_send_message, hres, hfail, hdesc, Registry.deactivateIn,
          hs]
  · intro name hname
    simp [apns_send_message, hname]

/-- C8 witness: the theorem's unsuccessful-send branch instantiated at a
provider that reports `"Unregistered"` for token `"xyz"`: the error is
raised and the token is deactivated. -/
theorem C8_single_send_witness :
    (apns_send_message ex8Send "xyz" ex8Reg).1
        = Except.error ⟨"Unregistered"⟩
    ∧ (apns_send_message ex8Send "xyz" ex8Reg).2.active "xyz" = false := by
  have h := (C8_single_send_outcomes ex8Send "xyz" ex8Reg).2.1
    ⟨false, "Unregistered"⟩ rfl rfl
  exact ⟨h.1, by simpa using h.2.1⟩

/-- C9: calling the builder with a structured `Alert` object and a
non-empty `loc_key` sets the `loc_key` field on the caller's own `Alert`
object, so the caller-supplied object is not left unchanged by payload
building (assuming its `loc_key` field did not already hold that key). -/
theorem C9_caller_alert_mutated (a : Alert) (k token : String)
    (badge : Option Int) (sound : Option String) (expiration : Option Int)
    (thread_id : Option String) (priority : Option Int)
    (collapse_id : Option String) (now : Int)
    (hk : k.isEmpty = false) (ha : a.loc_key ≠ some k) :
    ((_create_notification_request_from_args token (AlertArg.alert a) badge
        sound [] expiration thread_id (some k) priority collapse_id [] []
        now).map Prod.snd
      = Except.ok (AlertArg.alert { a with loc_key := some k }))
    ∧ AlertArg.alert { a with loc_key := some k } ≠ AlertArg.alert a := by
  constructor
  · rw [create_request_eq]
    simp [applyLocKey, normalizeAlert, locKeyTruthy, hk, callerAlertAfter,
      Except.map]
  · intro heq
    have h2 : ({ a with loc_key := some k } : Alert) = a := by
      injection heq
    have h3 : some k = a.loc_key := congrArg Alert.loc_key h2
    exact ha h3.symm

/-- C9 witness: the theorem instantiated at a default `Alert` and the key
`"key"`. -/
theorem C9_caller_alert_mutated_witness :
    "key".isEmpty = false
    ∧ Alert.default.loc_key ≠ some "key"
    ∧ (((_create_notification_request_from_args "abc"
          (AlertArg.alert Alert.default) none none [] none none
          (some "key") none none [] [] 0).map Prod.snd
        = Except.ok (AlertArg.alert
            { Alert.default with loc_key := some "key" }))
      ∧ AlertArg.alert { Alert.default with loc_key := some "key" }
          ≠ AlertArg.alert Alert.default) :=
  ⟨by decide, by decide,
   C9_caller_alert_mutated Alert.default "key" "abc" none none none none
     none none 0 (by decide) (by decide)⟩

/-- C10: the topic `apns_send_bulk_message` sends with is always the one
re-resolved from the application configuration, whatever topic the caller
supplied, whereas `apns_send_message` honours an explicitly supplied
topic. -/
theorem C10_bulk_ignores_topic_parameter (cfg : PushConfig)
    (topic : Option String) (application_id : Option String) :
    apns_send_bulk_message_topic cfg topic application_id
      = cfg.apns_topic application_id
    ∧ ∀ t : String,
        apns_send_message_topic cfg (some t) application_id = t :=
  ⟨rfl, fun _ => rfl⟩
